import Mathlib

/-!
# Verification of the TSR Challenge game backend

Shallow embedding of `src/backend/game-state-manager.ts` (class
`GameStateManager`) and of the `/admin/scoreboard` handler of
`src/backend/server.ts`, together with proofs about the frozen claims.

Modelling conventions:
* JavaScript numbers are modelled by `JSNum`: either an exact rational or
  `NaN`.  Arithmetic on `NaN` propagates `NaN`; every comparison involving
  `NaN` is `false`, exactly as in JavaScript.
* A JavaScript property access on an object that does not carry the property
  yields `undefined`; adding `undefined` to a number yields `NaN`, and
  `undefined === "grow"` is `false`.  The `TeamDecision` records are built in
  `submitDecisions` with exactly the fields `decisionId`, `round`,
  `submittedAt`, `actualCost`, so accesses to `d.cost` and `d.category`
  elsewhere in the manager return `undefined`; this is modelled by the
  `Option`-valued accessors `TeamDecision.costProp` / `categoryProp`.
* The `teams` record (integer keys `1..teamCount`) is modelled as a list in
  ascending `teamId` order, matching the enumeration order of
  `Object.values` for integer-like keys.
* `setInterval` ticks are modelled by the pure function `timerTick` (the
  body of the interval callback) together with a `timerRunning` flag on the
  manager state standing for `timerInterval !== null`.
* Fields of the game state that no claim mentions (scenario narrative,
  risky-event bookkeeping, timestamps, results caches) are outside the
  modelled state.
-/

/-- A JavaScript number: an exact rational or `NaN`. -/
inductive JSNum where
  | num (q : ℚ)
  | nan
deriving DecidableEq

namespace JSNum

/-- JavaScript `+` on numbers (`NaN` propagates). -/
def add : JSNum → JSNum → JSNum
  | num a, num b => num (a + b)
  | _, _ => nan

/-- JavaScript `-` on numbers (`NaN` propagates). -/
def sub : JSNum → JSNum → JSNum
  | num a, num b => num (a - b)
  | _, _ => nan

/-- JavaScript `*` on numbers (`NaN` propagates). -/
def mul : JSNum → JSNum → JSNum
  | num a, num b => num (a * b)
  | _, _ => nan

/-- JavaScript `>` on numbers: any comparison with `NaN` is `false`. -/
def gt : JSNum → JSNum → Bool
  | num a, num b => decide (a > b)
  | _, _ => false

/-- JavaScript `<=` style test used when reasoning: false on `NaN`. -/
def le : JSNum → JSNum → Bool
  | num a, num b => decide (a ≤ b)
  | _, _ => false

/-- `Math.round`: round half toward positive infinity (`NaN` propagates). -/
def round : JSNum → JSNum
  | num a => num (⌊a + 1/2⌋ : ℤ)
  | nan => nan

/-- `Math.max` over two arguments (`NaN` propagates). -/
def max : JSNum → JSNum → JSNum
  | num a, num b => num (Max.max a b)
  | _, _ => nan

/-- `Math.min` over two arguments (`NaN` propagates). -/
def min : JSNum → JSNum → JSNum
  | num a, num b => num (Min.min a b)
  | _, _ => nan

/-- Adding a possibly-`undefined` value to a number: `x + undefined` is
`NaN` in JavaScript. -/
def addUndef (a : JSNum) : Option ℚ → JSNum
  | some q => a.add (num q)
  | none => nan

end JSNum

/-- A `TeamDecision` record exactly as constructed in
`GameStateManager.submitDecisions` (`game-state-manager.ts:434-439`):
fields `decisionId`, `round`, `submittedAt` (an ISO timestamp, irrelevant to
every claim and omitted), `actualCost`.  These are the only records ever
stored in `currentRoundDecisions`. -/
structure TeamDecision where
  decisionId : String
  round : ℕ
  actualCost : ℚ
deriving DecidableEq

namespace TeamDecision

/-- JavaScript access `d.cost` on a `TeamDecision` record: the records built
in `submitDecisions` carry `actualCost` but no `cost` property, so the
access yields `undefined`. -/
def costProp (_ : TeamDecision) : Option ℚ := none

/-- JavaScript access `d.category` on a `TeamDecision` record: the records
built in `submitDecisions` carry no `category` property, so the access
yields `undefined`. -/
def categoryProp (_ : TeamDecision) : Option String := none

end TeamDecision

/-- `FinancialMetrics` (fields as produced by `createInitialMetrics` in the
baseline-financials config file). -/
structure FinancialMetrics where
  revenue : ℚ
  cogs : ℚ
  sga : ℚ
  ebitda : ℚ
  depreciation : ℚ
  amortization : ℚ
  ebit : ℚ
  cashTaxes : ℚ
  capex : ℚ
  operatingFCF : ℚ
  beginningCash : ℚ
  endingCash : ℚ
  npv : ℚ
  equityValue : ℚ
  sharesOutstanding : ℚ
  sharePrice : ℚ
  investedCapital : ℚ
  ebitdaMargin : ℚ
  ebitMargin : ℚ
  roic : ℚ
  cogsToRevenue : ℚ
  sgaToRevenue : ℚ
  capexToRevenue : ℚ
deriving DecidableEq

/-- `STARTING_INVESTMENT_CASH` from the baseline-financials config. -/
def STARTING_INVESTMENT_CASH : ℚ := 1200

/-- `TAX_RATE` from the baseline-financials config. -/
def TAX_RATE : ℚ := 22/100

/-- `INVESTED_CAPITAL` from the baseline-financials config. -/
def INVESTED_CAPITAL : ℚ := 15828

/-- `BASELINE_FINANCIALS.sharePrice` from the baseline-financials config. -/
def baselineSharePrice : ℚ := 5227/100

/-- `createInitialMetrics` from the baseline-financials config file. -/
def createInitialMetrics : FinancialMetrics :=
  { revenue := 42836
    cogs := -37037
    sga := -2061
    ebitda := 3738
    depreciation := -1510
    amortization := -112
    ebit := 2116
    cashTaxes := -466
    capex := -1713
    operatingFCF := 1561
    beginningCash := 1247
    endingCash := 1247 + 1561
    npv := 23201
    equityValue := 15018
    sharesOutstanding := 287
    sharePrice := baselineSharePrice
    investedCapital := INVESTED_CAPITAL
    ebitdaMargin := 3738 / 42836
    ebitMargin := 2116 / 42836
    roic := 2116 * (1 - TAX_RATE) / INVESTED_CAPITAL
    cogsToRevenue := 37037 / 42836
    sgaToRevenue := 2061 / 42836
    capexToRevenue := 1713 / 42836 }

/-- `TeamState` (`src/backend/types`, as initialised by `createTeamState`
and mutated only by the manager's methods). -/
structure TeamState where
  teamId : ℕ
  teamName : String
  isClaimed : Bool
  socketId : Option String
  cashBalance : JSNum
  currentRoundDecisions : List TeamDecision
  allDecisions : List TeamDecision
  metrics : FinancialMetrics
  stockPrice : ℚ
  cumulativeTSR : ℚ
  roundTSR : ℚ
  hasSubmitted : Bool
deriving DecidableEq

/-- The game status state machine values. -/
inductive GameStatus where
  | lobby
  | active
  | paused
  | results
  | finished
deriving DecidableEq

/-- The modelled part of `GameState`. -/
structure GameState where
  status : GameStatus
  currentRound : ℕ
  roundTimeRemaining : ℤ
  roundDuration : ℕ
  teams : List TeamState
  teamCount : ℕ
deriving DecidableEq

/-- The manager's own state: the authoritative `GameState` plus the private
`roundDuration` field and the timer (`timerInterval !== null` is
`timerRunning`). -/
structure ManagerState where
  state : GameState
  timerRunning : Bool
  roundDuration : ℕ
deriving DecidableEq

/-- The `{success, error?, teamId?}` result shape returned by the team
operations. -/
structure OpResult where
  success : Bool
  error : Option String := none
  teamId : Option ℕ := none
deriving DecidableEq

/-- Failure result helper. -/
def OpResult.fail (e : String) : OpResult := { success := false, error := some e }

/-- Replace the first element satisfying `p` (TypeScript mutates the first
object found by iteration; the rest of the list is untouched). -/
def updateFirst (p : α → Bool) (f : α → α) : List α → List α
  | [] => []
  | x :: xs => if p x then f x :: xs else x :: updateFirst p f xs

/-- Replace the manager's team list. -/
def ManagerState.setTeams (ms : ManagerState) (ts : List TeamState) : ManagerState :=
  { ms with state := { ms.state with teams := ts } }

/-- Modelled from the spec: the Decision Catalog (`config/decisions`) is not
among the provided sources; per spec §4.1 a catalog entry carries an `id`, a
`category` in grow/optimize/sustain, a positive `cost` and the set of rounds
in which it is available (impact coefficients are irrelevant to the claims
treated here). -/
structure Decision where
  id : String
  category : String
  cost : ℚ
  availableRounds : List ℕ
deriving DecidableEq

/-- Modelled from the spec: `decisionsForRound` — the catalog entries
available in the given round, in stable catalog order (spec §4.1). -/
def getDecisionsForRound (catalog : List Decision) (round : ℕ) : List Decision :=
  catalog.filter (fun d => d.availableRounds.contains round)

/-- Modelled from the spec: `decisionById` — lookup of a catalog entry by
id (spec §4.1). -/
def getDecisionById (catalog : List Decision) (id : String) : Option Decision :=
  catalog.find? (fun d => d.id == id)

/-- The validation loop of `submitDecisions` (`game-state-manager.ts:418-440`):
walks the submitted ids in order, rejects at the first id that is not
available this round or not in the catalog, and otherwise accumulates the
total cost and the `TeamDecision` records. -/
def validateDecisions (catalog : List Decision) (round : ℕ) (totalCost : ℚ)
    (valid : List TeamDecision) : List String → Except String (ℚ × List TeamDecision)
  | [] => Except.ok (totalCost, valid)
  | id :: rest =>
    if ((getDecisionsForRound catalog round).map Decision.id).contains id then
      match getDecisionById catalog id with
      | none => Except.error ("Decision " ++ id ++ " not found")
      | some d =>
          validateDecisions catalog round (totalCost + d.cost)
            (valid ++ [{ decisionId := id, round := round, actualCost := d.cost }]) rest
    else
      Except.error ("Decision " ++ id ++ " is not available this round")

/-- The state update applied to the submitting team on success
(`game-state-manager.ts:450-453`). -/
def applySubmission (vds : List TeamDecision) (totalCost : ℚ) (t : TeamState) : TeamState :=
  { t with currentRoundDecisions := vds
           cashBalance := t.cashBalance.sub (JSNum.num totalCost)
           hasSubmitted := true }

/-- `GameStateManager.submitDecisions` (`game-state-manager.ts:394-457`). -/
def submitDecisions (catalog : List Decision) (sid : String) (decisionIds : List String)
    (ms : ManagerState) : OpResult × ManagerState :=
  if ms.state.status ≠ GameStatus.active then
    (OpResult.fail "Round is not active", ms)
  else
    match ms.state.teams.find? (fun t => t.socketId == some sid) with
    | none => (OpResult.fail "Team not found", ms)
    | some team =>
      if team.hasSubmitted then
        (OpResult.fail "Already submitted for this round", ms)
      else
        match validateDecisions catalog ms.state.currentRound 0 [] decisionIds with
        | Except.error e => (OpResult.fail e, ms)
        | Except.ok (totalCost, validDecisions) =>
          if JSNum.gt (JSNum.num totalCost) team.cashBalance then
            (OpResult.fail "Insufficient funds", ms)
          else
            ({ success := true, teamId := some team.teamId },
             ms.setTeams (updateFirst (fun t => t.socketId == some sid)
               (applySubmission validDecisions totalCost) ms.state.teams))

/-- The refund computed by `unsubmitDecisions`
(`game-state-manager.ts:480`): `currentRoundDecisions.reduce((sum, d) =>
sum + d.cost, 0)` — `d.cost` is `undefined` on the stored records, which
carry `actualCost` instead. -/
def unsubmitRefund (ds : List TeamDecision) : JSNum :=
  ds.foldl (fun sum d => sum.addUndef d.costProp) (JSNum.num 0)

/-- The state update applied to the team by `unsubmitDecisions`
(`game-state-manager.ts:480-483`): add the computed refund, clear
`hasSubmitted`, keep `currentRoundDecisions`. -/
def applyUnsubmit (t : TeamState) : TeamState :=
  { t with cashBalance := t.cashBalance.add (unsubmitRefund t.currentRoundDecisions)
           hasSubmitted := false }

/-- `GameStateManager.unsubmitDecisions` (`game-state-manager.ts:462-487`). -/
def unsubmitDecisions (sid : String) (ms : ManagerState) : OpResult × ManagerState :=
  if ms.state.status ≠ GameStatus.active ∧ ms.state.status ≠ GameStatus.paused then
    (OpResult.fail "Round is not active", ms)
  else
    match ms.state.teams.find? (fun t => t.socketId == some sid) with
    | none => (OpResult.fail "Team not found", ms)
    | some team =>
      if !team.hasSubmitted then
        (OpResult.fail "Not submitted yet", ms)
      else
        ({ success := true, teamId := some team.teamId },
         ms.setTeams (updateFirst (fun t => t.socketId == some sid)
           applyUnsubmit ms.state.teams))

/-- JavaScript `String.prototype.toLowerCase`, modelled character-wise
(exact for the ASCII names handled here). -/
def jsToLower (s : String) : String := ⟨s.data.map Char.toLower⟩

/-- JavaScript `String.prototype.trim`: strip leading and trailing
whitespace. -/
def jsTrim (s : String) : String :=
  ⟨((s.data.dropWhile Char.isWhitespace).reverse.dropWhile Char.isWhitespace).reverse⟩

/-- `GameStateManager.joinGame` (`game-state-manager.ts:291-346`).  In
source order: reject when finished; reject empty/whitespace names; if the
calling connection already owns a slot, update that slot's name and return
it; else reconnect-by-name onto a claimed team with the same name
(case-insensitively); else claim the first unclaimed slot; else reject. -/
def joinGame (teamName sid : String) (ms : ManagerState) : OpResult × ManagerState :=
  if ms.state.status = GameStatus.finished then
    (OpResult.fail "Game has ended", ms)
  else if (jsTrim teamName).length = 0 then
    (OpResult.fail "Team name is required", ms)
  else
    match ms.state.teams.find? (fun t => t.socketId == some sid) with
    | some t =>
      ({ success := true, teamId := some t.teamId },
       ms.setTeams (updateFirst (fun u => u.socketId == some sid)
         (fun u => { u with teamName := jsTrim teamName }) ms.state.teams))
    | none =>
      match ms.state.teams.find?
          (fun t => t.isClaimed && jsToLower t.teamName == jsToLower (jsTrim teamName)) with
      | some t =>
        ({ success := true, teamId := some t.teamId },
         ms.setTeams (updateFirst
           (fun u => u.isClaimed && jsToLower u.teamName == jsToLower (jsTrim teamName))
           (fun u => { u with socketId := some sid }) ms.state.teams))
      | none =>
        match ms.state.teams.find? (fun t => !t.isClaimed) with
        | some t =>
          ({ success := true, teamId := some t.teamId },
           ms.setTeams (updateFirst (fun u => !u.isClaimed)
             (fun u => { u with isClaimed := true, socketId := some sid,
                                teamName := jsTrim teamName }) ms.state.teams))
        | none => (OpResult.fail "All team slots are full", ms)

/-- `GameStateManager.createTeamState` (`game-state-manager.ts:130-145`). -/
def createTeamState (teamId : ℕ) : TeamState :=
  { teamId := teamId
    teamName := ""
    isClaimed := false
    socketId := none
    cashBalance := JSNum.num STARTING_INVESTMENT_CASH
    currentRoundDecisions := []
    allDecisions := []
    metrics := createInitialMetrics
    stockPrice := baselineSharePrice
    cumulativeTSR := 0
    roundTSR := 0
    hasSubmitted := false }

/-- `GameStateManager.createTeamStates` (`game-state-manager.ts:117-125`):
one fresh slot per id `1..teamCount`. -/
def createTeamStates (teamCount : ℕ) : List TeamState :=
  (List.range teamCount).map (fun i => createTeamState (i + 1))

/-- `GameStateManager.configureTeamCount` (`game-state-manager.ts:242-259`).
`minTeams`/`maxTeams` come from `GAME_CONSTRAINTS` in the config module,
which is not among the provided sources; they are passed as parameters. -/
def configureTeamCount (minTeams maxTeams count : ℕ) (ms : ManagerState) :
    OpResult × ManagerState :=
  if ms.state.status ≠ GameStatus.lobby then
    (OpResult.fail "Can only configure teams in lobby", ms)
  else if count < minTeams ∨ count > maxTeams then
    (OpResult.fail "Team count out of range", ms)
  else
    ({ success := true },
     { ms with state := { ms.state with teamCount := count,
                                        teams := createTeamStates count } })

/-- `COUNTDOWN_DURATION_SECONDS` (`game-state-manager.ts:42`). -/
def COUNTDOWN_DURATION_SECONDS : ℕ := 4

/-- `GameStateManager.startGame` (`game-state-manager.ts:505-536`). -/
def startGame (ms : ManagerState) : OpResult × ManagerState :=
  if ms.state.status ≠ GameStatus.lobby then
    (OpResult.fail "Game can only be started from lobby", ms)
  else if (ms.state.teams.filter (fun t => t.isClaimed)).length = 0 then
    (OpResult.fail "At least one team must join before starting", ms)
  else
    ({ success := true },
     { ms with
       timerRunning := true
       state := { ms.state with
                  status := GameStatus.active
                  currentRound := 1
                  roundTimeRemaining := (ms.roundDuration : ℤ) + COUNTDOWN_DURATION_SECONDS
                  teams := ms.state.teams.map
                    (fun t => { t with hasSubmitted := false,
                                       currentRoundDecisions := [] }) } })

/-- `GameStateManager.pauseRound` (`game-state-manager.ts:541-551`). -/
def pauseRound (ms : ManagerState) : OpResult × ManagerState :=
  if ms.state.status ≠ GameStatus.active then
    (OpResult.fail "Can only pause active round", ms)
  else
    ({ success := true },
     { ms with timerRunning := false
               state := { ms.state with status := GameStatus.paused } })

/-- `GameStateManager.resumeRound` (`game-state-manager.ts:556-566`). -/
def resumeRound (ms : ManagerState) : OpResult × ManagerState :=
  if ms.state.status ≠ GameStatus.paused then
    (OpResult.fail "Can only resume paused round", ms)
  else
    ({ success := true },
     { ms with timerRunning := true
               state := { ms.state with status := GameStatus.active } })

/-- The auto-submit step of `processRoundEnd`
(`game-state-manager.ts:718-723`): a claimed team that has not submitted is
marked submitted with whatever `currentRoundDecisions` it had. -/
def autoSubmitTeam (t : TeamState) : TeamState :=
  if t.isClaimed && !t.hasSubmitted then { t with hasSubmitted := true } else t

/-- Modelled from the spec: `calculateRoundEnd` lives in
`calculation-engine.ts`, which is not among the provided sources; per spec
§4.4 round settlement "invokes Financial Model once per claimed team", the
model producing the team's next `FinancialMetrics` and share price
(spec §4.2).  The financial model itself is the parameter `model`. -/
def calculateRoundEnd (model : TeamState → FinancialMetrics)
    (teams : List TeamState) : List TeamState :=
  teams.map (fun t =>
    if t.isClaimed then
      { t with metrics := model t, stockPrice := (model t).sharePrice }
    else t)

/-- `GameStateManager.processRoundEnd` (`game-state-manager.ts:714-750`):
stop the timer, auto-submit claimed teams, run the calculation engine,
move to `results`, zero the clock.  (Snapshot capture and the results cache
are outside the modelled state.) -/
def processRoundEnd (model : TeamState → FinancialMetrics)
    (ms : ManagerState) : ManagerState :=
  { ms with
    timerRunning := false
    state := { ms.state with
               teams := calculateRoundEnd model (ms.state.teams.map autoSubmitTeam)
               status := GameStatus.results
               roundTimeRemaining := 0 } }

/-- `GameStateManager.endRound` (`game-state-manager.ts:571-578`). -/
def endRound (model : TeamState → FinancialMetrics) (ms : ManagerState) :
    OpResult × ManagerState :=
  if ms.state.status ≠ GameStatus.active ∧ ms.state.status ≠ GameStatus.paused then
    (OpResult.fail "No active round to end", ms)
  else
    ({ success := true }, processRoundEnd model ms)

/-- The body of the `setInterval` callback installed by `startTimer`
(`game-state-manager.ts:682-694`): when the status has left `active` the
tick only clears the interval; otherwise it decrements the clock and, at
zero, settles the round. -/
def timerTick (model : TeamState → FinancialMetrics) (ms : ManagerState) :
    ManagerState :=
  if ms.state.status ≠ GameStatus.active then
    { ms with timerRunning := false }
  else
    let ms' := { ms with state :=
      { ms.state with roundTimeRemaining := ms.state.roundTimeRemaining - 1 } }
    if ms'.state.roundTimeRemaining ≤ 0 then processRoundEnd model ms' else ms'

/-- The per-team cash computation inside `nextRound`
(`game-state-manager.ts:609-630`).  `g`, `o`, `m` are the three
`Math.random()` draws of that loop iteration.  The category filters read
`d.category` and the reducers read `d.cost` on the stored `TeamDecision`
records. -/
def nextRoundCash (g o m : ℚ) (t : TeamState) : JSNum :=
  let priorDecisions := t.currentRoundDecisions
  let growSpend := (priorDecisions.filter
      (fun d => d.categoryProp == some "grow")).foldl
      (fun s d => s.addUndef d.costProp) (JSNum.num 0)
  let optimizeSpend := (priorDecisions.filter
      (fun d => d.categoryProp == some "optimize")).foldl
      (fun s d => s.addUndef d.costProp) (JSNum.num 0)
  let sustainSpend := (priorDecisions.filter
      (fun d => d.categoryProp == some "sustain")).foldl
      (fun s d => s.addUndef d.costProp) (JSNum.num 0)
  let growReturn := growSpend.mul (JSNum.num (15/100 + g * (10/100)))
  let optimizeReturn := optimizeSpend.mul (JSNum.num (5/100 + o * (5/100)))
  let sustainCost := sustainSpend.mul (JSNum.num (2/100))
  let marketFactor := 95/100 + m * (10/100)
  let newCash := (((((JSNum.num STARTING_INVESTMENT_CASH).add growReturn).add
      optimizeReturn).sub sustainCost).mul (JSNum.num marketFactor)).round
  (JSNum.num 800).max ((JSNum.num 1600).min newCash)

/-- The per-team state update of the `nextRound` loop
(`game-state-manager.ts:605-635`). -/
def nextRoundTeamUpdate (g o m : ℚ) (t : TeamState) : TeamState :=
  { t with allDecisions := t.allDecisions ++ t.currentRoundDecisions
           currentRoundDecisions := []
           hasSubmitted := false
           cashBalance := nextRoundCash g o m t }

/-- Map with the element's position (the `nextRound` loop draws three fresh
`Math.random()` values per team, in iteration order). -/
def mapWithIndexFrom (f : ℕ → α → β) : ℕ → List α → List β
  | _, [] => []
  | i, x :: xs => f i x :: mapWithIndexFrom f (i + 1) xs

/-- `GameStateManager.finalizeGame` (`game-state-manager.ts:803-822`):
status `finished`, round decisions archived.  (Final-results generation is
outside the modelled state.) -/
def finalizeGame (ms : ManagerState) : ManagerState :=
  { ms with state := { ms.state with
      status := GameStatus.finished
      teams := ms.state.teams.map (fun t =>
        { t with allDecisions := t.allDecisions ++ t.currentRoundDecisions
                 currentRoundDecisions := [] }) } }

/-- `GameStateManager.nextRound` (`game-state-manager.ts:583-642`).
`draws i` gives the three `Math.random()` values drawn for the `i`-th team
(0-based) in the reset loop. -/
def nextRound (draws : ℕ → ℚ × ℚ × ℚ) (ms : ManagerState) :
    OpResult × ManagerState :=
  if ms.state.status ≠ GameStatus.results then
    (OpResult.fail "Can only advance to next round from results screen", ms)
  else if ms.state.currentRound ≥ 5 then
    ({ success := true }, finalizeGame ms)
  else
    ({ success := true },
     { ms with
       timerRunning := true
       state := { ms.state with
                  status := GameStatus.active
                  currentRound := ms.state.currentRound + 1
                  roundTimeRemaining := (ms.roundDuration : ℤ) + COUNTDOWN_DURATION_SECONDS
                  teams := mapWithIndexFrom
                    (fun i t =>
                      nextRoundTeamUpdate (draws i).1 (draws i).2.1 (draws i).2.2 t)
                    0 ms.state.teams } })

/-- A row of the `/admin/scoreboard` response (`server.ts:479-490`),
restricted to the fields the ranking can see. -/
structure ScoreRow where
  teamId : ℕ
  stockPrice : ℚ
  cumulativeTSR : ℚ
deriving DecidableEq

/-- Row built from a claimed team (`server.ts:484-490`). -/
def toScoreRow (t : TeamState) : ScoreRow :=
  { teamId := t.teamId, stockPrice := t.stockPrice, cumulativeTSR := t.cumulativeTSR }

/-- Insertion step of a stable descending sort on `cumulativeTSR`: the new
element is placed after every already-placed element whose key is ≥ its
own.  For the consistent comparator `(a, b) => b.cumulativeTSR -
a.cumulativeTSR` this computes exactly the result `Array.prototype.sort`
(stable per the ECMAScript specification) produces at `server.ts:493`. -/
def insertScore (x : ScoreRow) : List ScoreRow → List ScoreRow
  | [] => [x]
  | y :: ys =>
    if y.cumulativeTSR ≥ x.cumulativeTSR then y :: insertScore x ys
    else x :: y :: ys

/-- Stable descending sort on `cumulativeTSR` (`server.ts:493`), processing
rows in their original order. -/
def scoreboardSort (l : List ScoreRow) : List ScoreRow :=
  l.foldl (fun acc x => insertScore x acc) []

/-- The `/admin/scoreboard` team ranking (`server.ts:469-493`): claimed
teams, in `Object.values` (ascending `teamId`) order, sorted by
`cumulativeTSR` descending and nothing else. -/
def adminScoreboard (teams : List TeamState) : List ScoreRow :=
  scoreboardSort ((teams.filter (fun t => t.isClaimed)).map toScoreRow)

/-- Written from the spec's words, for comparison with `adminScoreboard`
(claim C7): ranking "by `cumulativeTSR` descending (ties broken by absolute
stock price, then by team id for determinism)". -/
def specScoreOrder (a b : ScoreRow) : Bool :=
  if a.cumulativeTSR ≠ b.cumulativeTSR then a.cumulativeTSR > b.cumulativeTSR
  else if a.stockPrice ≠ b.stockPrice then a.stockPrice > b.stockPrice
  else a.teamId ≤ b.teamId

/-- Insertion sort by `specScoreOrder` (total order, so the sorted result
is unique). -/
def specInsert (x : ScoreRow) : List ScoreRow → List ScoreRow
  | [] => [x]
  | y :: ys => if specScoreOrder y x then y :: specInsert x ys else x :: y :: ys

/-- The spec's ranking of claim C7, as a function on rows. -/
def specScoreboardSort (l : List ScoreRow) : List ScoreRow :=
  l.foldl (fun acc x => specInsert x acc) []

/-! ## Concrete states used by witnesses and counterexamples -/

/-- A small catalog instance for concrete runs: one decision per category,
`d3` deliberately more expensive than the starting cash. -/
def demoCatalog : List Decision :=
  [ { id := "d1", category := "grow", cost := 500, availableRounds := [1, 2] },
    { id := "d2", category := "optimize", cost := 400, availableRounds := [1] },
    { id := "d3", category := "sustain", cost := 9000, availableRounds := [1] } ]

/-- A claimed, connected team in its initial state. -/
def demoTeam : TeamState :=
  { createTeamState 1 with isClaimed := true, teamName := "Alpha", socketId := some "s1" }

/-- A one-team game in an active round 1. -/
def demoActiveMs : ManagerState :=
  { state := { status := GameStatus.active, currentRound := 1, roundTimeRemaining := 60,
               roundDuration := 60, teams := [demoTeam], teamCount := 1 },
    timerRunning := true, roundDuration := 60 }

/-- A one-team game on the round 1 results screen. -/
def demoResultsMs : ManagerState :=
  { state := { status := GameStatus.results, currentRound := 1, roundTimeRemaining := 0,
               roundDuration := 60, teams := [demoTeam], teamCount := 1 },
    timerRunning := false, roundDuration := 60 }

/-- A one-team game still in the lobby. -/
def demoLobbyMs : ManagerState :=
  { state := { status := GameStatus.lobby, currentRound := 1, roundTimeRemaining := 60,
               roundDuration := 60, teams := [demoTeam], teamCount := 1 },
    timerRunning := false, roundDuration := 60 }

/-- A concrete stand-in for the financial model parameter: settlement keeps
the team's current metrics. -/
def demoModel : TeamState → FinancialMetrics := fun t => t.metrics

/-- Fixed `Math.random()` draws (all one half) for concrete `nextRound`
runs; the draw for market conditions then makes `marketFactor = 1`. -/
def demoDraws : ℕ → ℚ × ℚ × ℚ := fun _ => (1/2, 1/2, 1/2)

/-- A team that spent 500 on the grow decision `d1` this round: exactly the
record `submitDecisions` stores for it. -/
def c4SpenderTeam : TeamState :=
  { demoTeam with
    currentRoundDecisions := [{ decisionId := "d1", round := 1, actualCost := 500 }],
    cashBalance := JSNum.num 700, hasSubmitted := true }

/-- A two-team game (Alpha on socket s1, Beta on socket s2) in an active
round, used for the `joinGame` analysis. -/
def cexJoinMs : ManagerState :=
  { state := { status := GameStatus.active, currentRound := 1, roundTimeRemaining := 60,
               roundDuration := 60,
               teams := [demoTeam,
                         { createTeamState 2 with isClaimed := true, teamName := "Beta",
                                                  socketId := some "s2" }],
               teamCount := 2 },
    timerRunning := true, roundDuration := 60 }

/-- The descending-key relation of the scoreboard sort. -/
def scoreDesc (a b : ScoreRow) : Prop := b.cumulativeTSR ≤ a.cumulativeTSR

/-- Two claimed teams tied on `cumulativeTSR = 5`, the lower `teamId` having
the lower stock price. -/
def cexTieTeams : List TeamState :=
  [{ createTeamState 1 with isClaimed := true, stockPrice := 10, cumulativeTSR := 5 },
   { createTeamState 2 with isClaimed := true, stockPrice := 99, cumulativeTSR := 5 }]

/-! ## Claim theorems -/

/-- C5: `submitDecisions` invoked while the status is not `active` (results
screen included), and `unsubmitDecisions` invoked while the status is
neither `active` nor `paused`, return a structured failure result and leave
the whole manager state unchanged. -/
theorem wrong_status_guards (catalog : List Decision) (sid : String)
    (ids : List String) (ms : ManagerState)
    (hs : ms.state.status ≠ GameStatus.active) :
    submitDecisions catalog sid ids ms = (OpResult.fail "Round is not active", ms) ∧
    (ms.state.status ≠ GameStatus.paused →
      unsubmitDecisions sid ms = (OpResult.fail "Round is not active", ms)) := by
  refine ⟨?_, fun hp => ?_⟩
  · unfold submitDecisions
    rw [if_pos hs]
  · unfold unsubmitDecisions
    rw [if_pos ⟨hs, hp⟩]

/-- Witness for C5: concrete rejected calls on the results screen. -/
theorem wrong_status_guards_witness :
    submitDecisions demoCatalog "s1" ["d1"] demoResultsMs
      = (OpResult.fail "Round is not active", demoResultsMs) ∧
    unsubmitDecisions "s1" demoResultsMs
      = (OpResult.fail "Round is not active", demoResultsMs) := by
  have h := wrong_status_guards demoCatalog "s1" ["d1"] demoResultsMs (by decide)
  exact ⟨h.1, h.2 (by decide)⟩

/-- C6: a timer tick that fires while the status is not `active` only clears
the interval: the game state is untouched (no decrement, no settlement), and
any further stray ticks are no-ops. -/
theorem timerTick_inactive_noop (model : TeamState → FinancialMetrics)
    (ms : ManagerState) (hs : ms.state.status ≠ GameStatus.active) :
    timerTick model ms = { ms with timerRunning := false } ∧
    (timerTick model ms).state = ms.state ∧
    timerTick model (timerTick model ms) = timerTick model ms := by
  have h1 : timerTick model ms = { ms with timerRunning := false } := by
    unfold timerTick
    rw [if_pos hs]
  refine ⟨h1, by rw [h1], ?_⟩
  rw [h1]
  unfold timerTick
  rw [if_pos (show ({ ms with timerRunning := false } : ManagerState).state.status
      ≠ GameStatus.active from hs)]

/-- Witness for C6: a stray tick on the results screen. -/
theorem timerTick_inactive_noop_witness :
    (timerTick demoModel demoResultsMs).state = demoResultsMs.state ∧
    timerTick demoModel (timerTick demoModel demoResultsMs)
      = timerTick demoModel demoResultsMs := by
  have h := timerTick_inactive_noop demoModel demoResultsMs (by decide)
  exact ⟨h.2.1, h.2.2⟩

/-- C9: a successful `startGame`, and a successful `nextRound` that starts a
new round, set `roundTimeRemaining` to `roundDuration +
COUNTDOWN_DURATION_SECONDS` (= duration + 4), strictly above the configured
duration. -/
theorem timer_countdown_offset (ms ms2 : ManagerState) (draws : ℕ → ℚ × ℚ × ℚ)
    (h1 : (startGame ms).1.success = true)
    (h2 : (nextRound draws ms2).1.success = true)
    (h3 : ms2.state.currentRound < 5) :
    (startGame ms).2.state.roundTimeRemaining
        = (ms.roundDuration : ℤ) + COUNTDOWN_DURATION_SECONDS ∧
    (ms.roundDuration : ℤ) < (startGame ms).2.state.roundTimeRemaining ∧
    (nextRound draws ms2).2.state.roundTimeRemaining
        = (ms2.roundDuration : ℤ) + COUNTDOWN_DURATION_SECONDS ∧
    (ms2.roundDuration : ℤ) < (nextRound draws ms2).2.state.roundTimeRemaining := by
  by_cases hA : ms.state.status ≠ GameStatus.lobby
  · exfalso
    unfold startGame at h1
    rw [if_pos hA] at h1
    simp [OpResult.fail] at h1
  by_cases hB : (ms.state.teams.filter (fun t => t.isClaimed)).length = 0
  · exfalso
    unfold startGame at h1
    rw [if_neg hA, if_pos hB] at h1
    simp [OpResult.fail] at h1
  by_cases hC : ms2.state.status ≠ GameStatus.results
  · exfalso
    unfold nextRound at h2
    rw [if_pos hC] at h2
    simp [OpResult.fail] at h2
  have hD : ¬ ms2.state.currentRound ≥ 5 := by omega
  refine ⟨?_, ?_, ?_, ?_⟩
  · unfold startGame
    rw [if_neg hA, if_neg hB]
  · unfold startGame
    rw [if_neg hA, if_neg hB]
    show (ms.roundDuration : ℤ) < (ms.roundDuration : ℤ) + COUNTDOWN_DURATION_SECONDS
    unfold COUNTDOWN_DURATION_SECONDS
    omega
  · unfold nextRound
    rw [if_neg hC, if_neg hD]
  · unfold nextRound
    rw [if_neg hC, if_neg hD]
    show (ms2.roundDuration : ℤ) < (ms2.roundDuration : ℤ) + COUNTDOWN_DURATION_SECONDS
    unfold COUNTDOWN_DURATION_SECONDS
    omega

/-- Witness for C9: concrete game start and round advance. -/
theorem timer_countdown_offset_witness :
    (startGame demoLobbyMs).2.state.roundTimeRemaining = (60 : ℤ) + 4 ∧
    (nextRound demoDraws demoResultsMs).2.state.roundTimeRemaining = (60 : ℤ) + 4 := by
  have h := timer_countdown_offset demoLobbyMs demoResultsMs demoDraws
    (by decide) (by decide) (by decide)
  exact ⟨h.1, h.2.2.1⟩

/-- C10: a successful `configureTeamCount` replaces the whole team list with
freshly created unclaimed slots (every prior claim, name, connection and
per-team state is lost, also when the count is unchanged); outside the lobby
the call is rejected with the state unchanged. -/
theorem configureTeamCount_replaces_teams (minT maxT c : ℕ) (ms : ManagerState) :
    ((configureTeamCount minT maxT c ms).1.success = true →
      (configureTeamCount minT maxT c ms).2.state.teams = createTeamStates c ∧
      (configureTeamCount minT maxT c ms).2.state.teamCount = c ∧
      ∀ t ∈ createTeamStates c, t.isClaimed = false ∧ t.teamName = "" ∧
        t.socketId = none ∧ t.hasSubmitted = false ∧ t.currentRoundDecisions = [] ∧
        t.cashBalance = JSNum.num STARTING_INVESTMENT_CASH ∧
        t.metrics = createInitialMetrics) ∧
    (ms.state.status ≠ GameStatus.lobby →
      configureTeamCount minT maxT c ms
        = (OpResult.fail "Can only configure teams in lobby", ms)) := by
  constructor
  · intro hsucc
    by_cases hA : ms.state.status ≠ GameStatus.lobby
    · exfalso
      unfold configureTeamCount at hsucc
      rw [if_pos hA] at hsucc
      simp [OpResult.fail] at hsucc
    by_cases hB : c < minT ∨ c > maxT
    · exfalso
      unfold configureTeamCount at hsucc
      rw [if_neg hA, if_pos hB] at hsucc
      simp [OpResult.fail] at hsucc
    refine ⟨?_, ?_, ?_⟩
    · unfold configureTeamCount
      rw [if_neg hA, if_neg hB]
    · unfold configureTeamCount
      rw [if_neg hA, if_neg hB]
    · intro t ht
      unfold createTeamStates at ht
      obtain ⟨i, _, rfl⟩ := List.mem_map.mp ht
      exact ⟨rfl, rfl, rfl, rfl, rfl, rfl, rfl⟩
  · intro hA
    unfold configureTeamCount
    rw [if_pos hA]

/-- Witness for C10: reconfiguring to three teams from the demo lobby wipes
the claimed team; the same call on the results screen is rejected. -/
theorem configureTeamCount_replaces_teams_witness :
    (configureTeamCount 2 15 3 demoLobbyMs).2.state.teams = createTeamStates 3 ∧
    configureTeamCount 2 15 3 demoResultsMs
      = (OpResult.fail "Can only configure teams in lobby", demoResultsMs) := by
  refine ⟨((configureTeamCount_replaces_teams 2 15 3 demoLobbyMs).1 (by decide)).1, ?_⟩
  exact (configureTeamCount_replaces_teams 2 15 3 demoResultsMs).2 (by decide)

/-- C2: evaluation of the code at the failing input.  Submitting the 500-cost
decision `d1` from a 1200 balance leaves 700; `unsubmitDecisions` then adds
`Σ d.cost` over the stored records, but the records carry `actualCost`, not
`cost`, so the refund is `0 + undefined = NaN` and the balance becomes `NaN`
instead of 1200; resubmitting the same decision succeeds (every comparison
against `NaN` is false) and leaves `NaN` instead of 700. -/
theorem submit_unsubmit_refund_nan :
    (submitDecisions demoCatalog "s1" ["d1"] demoActiveMs).1.success = true ∧
    ((submitDecisions demoCatalog "s1" ["d1"] demoActiveMs).2.state.teams.map
        TeamState.cashBalance = [JSNum.num 700]) ∧
    (unsubmitDecisions "s1"
        (submitDecisions demoCatalog "s1" ["d1"] demoActiveMs).2).1.success = true ∧
    ((unsubmitDecisions "s1"
        (submitDecisions demoCatalog "s1" ["d1"] demoActiveMs).2).2.state.teams.map
        TeamState.cashBalance = [JSNum.nan]) ∧
    JSNum.nan ≠ JSNum.num 1200 ∧
    ((submitDecisions demoCatalog "s1" ["d1"]
        (unsubmitDecisions "s1"
          (submitDecisions demoCatalog "s1" ["d1"] demoActiveMs).2).2).1.success = true) ∧
    ((submitDecisions demoCatalog "s1" ["d1"]
        (unsubmitDecisions "s1"
          (submitDecisions demoCatalog "s1" ["d1"] demoActiveMs).2).2).2.state.teams.map
        TeamState.cashBalance = [JSNum.nan]) ∧
    JSNum.nan ≠ JSNum.num 700 := by
  norm_num [submitDecisions, unsubmitDecisions, demoActiveMs, demoTeam, createTeamState,
    demoCatalog, validateDecisions, getDecisionsForRound, getDecisionById, List.find?,
    updateFirst, applySubmission, applyUnsubmit, unsubmitRefund, TeamDecision.costProp,
    JSNum.gt, JSNum.sub, JSNum.add, JSNum.addUndef, OpResult.fail, ManagerState.setTeams,
    STARTING_INVESTMENT_CASH]
  decide

/-- C4: the cash-replenishment computation of `nextRound` does not depend on
the team's decisions at all: the category filters compare the undefined
`d.category` against the category names, so every per-category spend is 0
and the new balance is `clamp(round(1200 · marketFactor))` for every team;
in particular a team that spent 500 on the grow decision and a team that
spent nothing receive the same cash under the same draws. -/
theorem nextRoundCash_ignores_category_spend :
    (∀ (g o m : ℚ) (t : TeamState),
      nextRoundCash g o m t
        = (JSNum.num 800).max ((JSNum.num 1600).min
            ((JSNum.num (STARTING_INVESTMENT_CASH * (95/100 + m * (10/100)))).round))) ∧
    (∀ (g o m : ℚ) (t u : TeamState), nextRoundCash g o m t = nextRoundCash g o m u) ∧
    nextRoundCash (1/2) (1/2) (1/2) c4SpenderTeam = JSNum.num 1200 ∧
    nextRoundCash (1/2) (1/2) (1/2) demoTeam = JSNum.num 1200 := by
  have hfil : ∀ (c : String) (l : List TeamDecision),
      l.filter (fun d => TeamDecision.categoryProp d == some c) = [] := by
    intro c l
    apply List.filter_eq_nil_iff.mpr
    intro a _
    simp [TeamDecision.categoryProp]
  have hclosed : ∀ (g o m : ℚ) (t : TeamState),
      nextRoundCash g o m t
        = (JSNum.num 800).max ((JSNum.num 1600).min
            ((JSNum.num (STARTING_INVESTMENT_CASH * (95/100 + m * (10/100)))).round)) := by
    intro g o m t
    simp [nextRoundCash, hfil, JSNum.add, JSNum.mul, JSNum.sub, List.foldl]
  have hconc : ∀ (t : TeamState), nextRoundCash (1/2) (1/2) (1/2) t = JSNum.num 1200 := by
    intro t
    rw [hclosed]
    norm_num [JSNum.max, JSNum.min, JSNum.round, STARTING_INVESTMENT_CASH]
  exact ⟨hclosed, fun g o m t u => by rw [hclosed, hclosed],
    hconc c4SpenderTeam, hconc demoTeam⟩

/-- Auto-submit marks every claimed team submitted and changes nothing else
that settlement reads. -/
theorem autoSubmitTeam_claimed (t : TeamState) (h : t.isClaimed = true) :
    (autoSubmitTeam t).hasSubmitted = true ∧ (autoSubmitTeam t).isClaimed = true ∧
    (autoSubmitTeam t).teamId = t.teamId := by
  unfold autoSubmitTeam
  by_cases hs : t.hasSubmitted
  · simp [h, hs]
  · simp [h, hs]

/-- C3: settlement (`processRoundEnd`) is total: the status becomes
`results` with the timer stopped and the clock zeroed; the team list is the
pointwise auto-submit-then-model image of the old one; every claimed team —
also one that never called `submitDecisions` — ends with `hasSubmitted =
true` and metrics recomputed by the financial model; and settlement is
exactly what `endRound` runs from `active`/`paused` and what a timer tick
runs when the clock reaches zero. -/
theorem processRoundEnd_total_settlement (model : TeamState → FinancialMetrics)
    (ms : ManagerState) :
    (processRoundEnd model ms).state.status = GameStatus.results ∧
    (processRoundEnd model ms).timerRunning = false ∧
    (processRoundEnd model ms).state.roundTimeRemaining = 0 ∧
    (∀ t ∈ ms.state.teams, t.isClaimed = true →
      ∃ u ∈ (processRoundEnd model ms).state.teams,
        u.teamId = t.teamId ∧ u.hasSubmitted = true ∧
        u.metrics = model (autoSubmitTeam t) ∧
        u.stockPrice = (model (autoSubmitTeam t)).sharePrice) ∧
    (ms.state.status = GameStatus.active ∨ ms.state.status = GameStatus.paused →
      endRound model ms = ({ success := true }, processRoundEnd model ms)) ∧
    (ms.state.status = GameStatus.active → ms.state.roundTimeRemaining ≤ 1 →
      timerTick model ms = processRoundEnd model ms) := by
  refine ⟨rfl, rfl, rfl, ?_, ?_, ?_⟩
  · intro t ht hc
    obtain ⟨h1, h2, h3⟩ := autoSubmitTeam_claimed t hc
    have hmem0 : autoSubmitTeam t ∈ ms.state.teams.map autoSubmitTeam :=
      List.mem_map_of_mem autoSubmitTeam ht
    have hmem := List.mem_map_of_mem (fun u =>
      if u.isClaimed then
        { u with metrics := model u, stockPrice := (model u).sharePrice }
      else u) hmem0
    simp only [processRoundEnd, calculateRoundEnd]
    refine ⟨_, hmem, ?_, ?_, ?_, ?_⟩ <;> simp [h1, h2, h3]
  · intro h
    unfold endRound
    rw [if_neg (by rcases h with h | h <;> simp [h])]
  · intro ha hrt
    unfold timerTick
    rw [if_neg (by simp [ha])]
    show (if ms.state.roundTimeRemaining - 1 ≤ 0 then
            processRoundEnd model
              { ms with state :=
                  { ms.state with roundTimeRemaining := ms.state.roundTimeRemaining - 1 } }
          else
            { ms with state :=
                { ms.state with roundTimeRemaining := ms.state.roundTimeRemaining - 1 } })
        = processRoundEnd model ms
    rw [if_pos (by omega)]
    rfl

/-- Witness for C3: settling the demo game from an active round. -/
theorem processRoundEnd_total_settlement_witness :
    (processRoundEnd demoModel demoActiveMs).state.status = GameStatus.results ∧
    (∃ u ∈ (processRoundEnd demoModel demoActiveMs).state.teams,
      u.teamId = demoTeam.teamId ∧ u.hasSubmitted = true ∧
      u.metrics = demoModel (autoSubmitTeam demoTeam) ∧
      u.stockPrice = (demoModel (autoSubmitTeam demoTeam)).sharePrice) ∧
    endRound demoModel demoActiveMs
      = ({ success := true }, processRoundEnd demoModel demoActiveMs) ∧
    timerTick demoModel
        { demoActiveMs with state := { demoActiveMs.state with roundTimeRemaining := 1 } }
      = processRoundEnd demoModel
        { demoActiveMs with state := { demoActiveMs.state with roundTimeRemaining := 1 } } := by
  have h := processRoundEnd_total_settlement demoModel demoActiveMs
  have h2 := processRoundEnd_total_settlement demoModel
    { demoActiveMs with state := { demoActiveMs.state with roundTimeRemaining := 1 } }
  exact ⟨h.1, h.2.2.2.1 demoTeam (by simp [demoActiveMs]) rfl,
    h.2.2.2.2.1 (Or.inl rfl), h2.2.2.2.2.2 rfl (by decide)⟩

/-- C1: while the status is `active`, a `submitDecisions` call whose
validated total cost exceeds the team's (numeric) cash balance is rejected
with no state change — any failing call leaves the whole manager state
untouched — and a successful call deducts exactly the total cost, so the
total cost is at most the pre-submission balance and the post-submission
balance is non-negative. -/
theorem submitDecisions_budget_guard (catalog : List Decision) (sid : String)
    (ids : List String) (ms : ManagerState)
    (hactive : ms.state.status = GameStatus.active) :
    ((submitDecisions catalog sid ids ms).1.success = false →
        (submitDecisions catalog sid ids ms).2 = ms) ∧
    (∀ (team : TeamState) (totalCost : ℚ) (vds : List TeamDecision) (q : ℚ),
        ms.state.teams.find? (fun t => t.socketId == some sid) = some team →
        team.hasSubmitted = false →
        validateDecisions catalog ms.state.currentRound 0 [] ids
          = Except.ok (totalCost, vds) →
        team.cashBalance = JSNum.num q →
        totalCost > q →
        (submitDecisions catalog sid ids ms).1.success = false ∧
        (submitDecisions catalog sid ids ms).2 = ms) ∧
    (∀ (team : TeamState) (q : ℚ),
        ms.state.teams.find? (fun t => t.socketId == some sid) = some team →
        team.cashBalance = JSNum.num q →
        (submitDecisions catalog sid ids ms).1.success = true →
        ∃ (totalCost : ℚ) (vds : List TeamDecision),
          validateDecisions catalog ms.state.currentRound 0 [] ids
            = Except.ok (totalCost, vds) ∧
          totalCost ≤ q ∧ 0 ≤ q - totalCost ∧
          (applySubmission vds totalCost team).cashBalance = JSNum.num (q - totalCost) ∧
          (applySubmission vds totalCost team).hasSubmitted = true ∧
          (applySubmission vds totalCost team).currentRoundDecisions = vds ∧
          (submitDecisions catalog sid ids ms).2
            = ms.setTeams (updateFirst (fun t => t.socketId == some sid)
                (applySubmission vds totalCost) ms.state.teams)) := by
  have hng : ¬ ms.state.status ≠ GameStatus.active := fun h => h hactive
  refine ⟨?_, ?_, ?_⟩
  · intro hfail
    unfold submitDecisions at hfail ⊢
    rw [if_neg hng] at hfail ⊢
    cases hfind : ms.state.teams.find? (fun t => t.socketId == some sid) with
    | none => rfl
    | some team =>
      rw [hfind] at hfail
      by_cases hsub : team.hasSubmitted = true
      · simp [hsub]
      · cases hval : validateDecisions catalog ms.state.currentRound 0 [] ids with
        | error e => simp [hsub]
        | ok p =>
          obtain ⟨tc, vd⟩ := p
          rw [hval] at hfail
          by_cases hgt : (JSNum.num tc).gt team.cashBalance = true
          · simp [hsub, hgt]
          · simp [hsub, hgt] at hfail
  · intro team tc vds q hfind hsub hval hcash hgt
    unfold submitDecisions
    rw [if_neg hng, hfind, hval]
    have hgt2 : (JSNum.num tc).gt team.cashBalance = true := by
      rw [hcash]
      simpa [JSNum.gt] using hgt
    simp [hsub, hgt2, OpResult.fail]
  · intro team q hfind hcash hsucc
    unfold submitDecisions at hsucc ⊢
    rw [if_neg hng, hfind] at hsucc ⊢
    by_cases hsub : team.hasSubmitted = true
    · simp [hsub, OpResult.fail] at hsucc
    · cases hval : validateDecisions catalog ms.state.currentRound 0 [] ids with
      | error e =>
        rw [hval] at hsucc
        simp [hsub, OpResult.fail] at hsucc
      | ok p =>
        obtain ⟨tc, vds⟩ := p
        rw [hval] at hsucc
        by_cases hgt : (JSNum.num tc).gt team.cashBalance = true
        · simp [hsub, hgt, OpResult.fail] at hsucc
        · have hle : tc ≤ q := by
            rw [hcash] at hgt
            simpa [JSNum.gt, not_lt] using hgt
          refine ⟨tc, vds, rfl, hle, by linarith, ?_, rfl, rfl, ?_⟩
          · simp [applySubmission, hcash, JSNum.sub]
          · simp [hsub, hgt]

/-- Witness for C1: the 9000-cost decision `d3` is rejected from a 1200
balance with no state change. -/
theorem submitDecisions_budget_guard_witness :
    (submitDecisions demoCatalog "s1" ["d3"] demoActiveMs).1.success = false ∧
    (submitDecisions demoCatalog "s1" ["d3"] demoActiveMs).2 = demoActiveMs := by
  exact (submitDecisions_budget_guard demoCatalog "s1" ["d3"] demoActiveMs rfl).2.1
    demoTeam (0 + 9000) [{ decisionId := "d3", round := 1, actualCost := 9000 }] 1200
    rfl rfl rfl rfl (by norm_num)

/-- Inserting into the stable descending sort permutes the element in. -/
theorem insertScore_perm (x : ScoreRow) (l : List ScoreRow) :
    (insertScore x l).Perm (x :: l) := by
  induction l with
  | nil => simp [insertScore]
  | cons y ys ih =>
    unfold insertScore
    by_cases h : y.cumulativeTSR ≥ x.cumulativeTSR
    · rw [if_pos h]
      exact (ih.cons y).trans (List.Perm.swap x y ys)
    · rw [if_neg h]

/-- Inserting preserves the descending pairwise order. -/
theorem insertScore_pairwise (x : ScoreRow) (l : List ScoreRow)
    (h : l.Pairwise scoreDesc) : (insertScore x l).Pairwise scoreDesc := by
  induction l with
  | nil => simp [insertScore, List.pairwise_singleton]
  | cons y ys ih =>
    rcases List.pairwise_cons.mp h with ⟨hy, hys⟩
    unfold insertScore
    by_cases hyx : y.cumulativeTSR ≥ x.cumulativeTSR
    · rw [if_pos hyx]
      apply List.pairwise_cons.mpr
      refine ⟨?_, ih hys⟩
      intro b hb
      rcases List.mem_cons.mp ((insertScore_perm x ys).mem_iff.mp hb) with rfl | hb2
      · exact hyx
      · exact hy b hb2
    · rw [if_neg hyx]
      apply List.pairwise_cons.mpr
      have hxy : y.cumulativeTSR ≤ x.cumulativeTSR := le_of_not_ge hyx
      refine ⟨?_, h⟩
      intro b hb
      rcases List.mem_cons.mp hb with rfl | hb2
      · exact hxy
      · exact le_trans (hy b hb2) hxy

/-- Stability of the insertion: on a list already sorted descending, the
elements with a given key keep their order, a newly inserted element with
that key going last. -/
theorem insertScore_filter (x : ScoreRow) (c : ℚ) (l : List ScoreRow)
    (h : l.Pairwise scoreDesc) :
    (insertScore x l).filter (fun r => r.cumulativeTSR == c)
      = if x.cumulativeTSR = c
          then l.filter (fun r => r.cumulativeTSR == c) ++ [x]
          else l.filter (fun r => r.cumulativeTSR == c) := by
  induction l with
  | nil => by_cases hx : x.cumulativeTSR = c <;> simp [insertScore, hx]
  | cons y ys ih =>
    rcases List.pairwise_cons.mp h with ⟨hy, hys⟩
    unfold insertScore
    by_cases hyx : y.cumulativeTSR ≥ x.cumulativeTSR
    · rw [if_pos hyx]
      by_cases hyc : y.cumulativeTSR = c <;>
        by_cases hxc : x.cumulativeTSR = c <;>
          simp [List.filter_cons, hyc, hxc, ih hys]
    · rw [if_neg hyx]
      have hlt : y.cumulativeTSR < x.cumulativeTSR := lt_of_not_ge hyx
      by_cases hxc : x.cumulativeTSR = c
      · have hnil : (y :: ys).filter (fun r => r.cumulativeTSR == c) = [] := by
          apply List.filter_eq_nil_iff.mpr
          intro b hb
          have hble : b.cumulativeTSR ≤ y.cumulativeTSR := by
            rcases List.mem_cons.mp hb with rfl | hb2
            · exact le_refl _
            · exact hy b hb2
          have hbc : b.cumulativeTSR < c := by
            rw [← hxc]
            exact lt_of_le_of_lt hble hlt
          simp [ne_of_lt hbc]
        simp [List.filter_cons, hxc, hnil]
      · simp [List.filter_cons, hxc]

/-- Invariant of the sorting fold: starting from a sorted accumulator, the
result is a sorted permutation of accumulator-then-input in which each key
class keeps the accumulator's, then the input's, relative order. -/
theorem scoreboardSortAux_spec (l acc : List ScoreRow) (hacc : acc.Pairwise scoreDesc) :
    (l.foldl (fun a x => insertScore x a) acc).Perm (acc ++ l) ∧
    (l.foldl (fun a x => insertScore x a) acc).Pairwise scoreDesc ∧
    ∀ c : ℚ, (l.foldl (fun a x => insertScore x a) acc).filter
        (fun r => r.cumulativeTSR == c)
      = acc.filter (fun r => r.cumulativeTSR == c)
          ++ l.filter (fun r => r.cumulativeTSR == c) := by
  induction l generalizing acc with
  | nil => simp [hacc]
  | cons x xs ih =>
    have hacc' := insertScore_pairwise x acc hacc
    obtain ⟨p1, p2, p3⟩ := ih (insertScore x acc) hacc'
    refine ⟨?_, p2, ?_⟩
    · simp only [List.foldl_cons]
      refine p1.trans ?_
      exact ((insertScore_perm x acc).append_right xs).trans List.perm_middle.symm
    · intro c
      simp only [List.foldl_cons]
      rw [p3 c, insertScore_filter x c acc hacc]
      by_cases hxc : x.cumulativeTSR = c
      · simp [List.filter_cons, hxc]
      · simp [List.filter_cons, hxc]

/-- C7 (amended): the admin scoreboard ranking is a deterministic function
of the team states — a permutation of the claimed teams sorted by
`cumulativeTSR` descending in which teams of equal `cumulativeTSR` keep
their enumeration (ascending `teamId`) order; stock price plays no part in
the tie-break. -/
theorem adminScoreboard_deterministic_order (teams : List TeamState) :
    (adminScoreboard teams).Perm ((teams.filter (fun t => t.isClaimed)).map toScoreRow) ∧
    (adminScoreboard teams).Pairwise scoreDesc ∧
    ∀ c : ℚ, (adminScoreboard teams).filter (fun r => r.cumulativeTSR == c)
      = ((teams.filter (fun t => t.isClaimed)).map toScoreRow).filter
          (fun r => r.cumulativeTSR == c) := by
  obtain ⟨p1, p2, p3⟩ := scoreboardSortAux_spec
    ((teams.filter (fun t => t.isClaimed)).map toScoreRow) [] List.Pairwise.nil
  refine ⟨?_, ?_, ?_⟩
  · simpa [adminScoreboard, scoreboardSort] using p1
  · simpa [adminScoreboard, scoreboardSort] using p2
  · intro c
    simpa [adminScoreboard, scoreboardSort] using p3 c

/-- C7 counterexample: two claimed teams tie on `cumulativeTSR`; the spec's
ordering (stock price breaks the tie) puts team 2 (stock 99) first, but the
code's scoreboard keeps team 1 (stock 10) first — the tie is broken by
position (ascending `teamId`), not by stock price. -/
theorem scoreboard_tiebreak_counterexample :
    (cexTieTeams.map TeamState.cumulativeTSR = [5, 5]) ∧
    adminScoreboard cexTieTeams
      = [{ teamId := 1, stockPrice := 10, cumulativeTSR := 5 },
         { teamId := 2, stockPrice := 99, cumulativeTSR := 5 }] ∧
    specScoreboardSort ((cexTieTeams.filter (fun t => t.isClaimed)).map toScoreRow)
      = [{ teamId := 2, stockPrice := 99, cumulativeTSR := 5 },
         { teamId := 1, stockPrice := 10, cumulativeTSR := 5 }] ∧
    adminScoreboard cexTieTeams
      ≠ specScoreboardSort ((cexTieTeams.filter (fun t => t.isClaimed)).map toScoreRow) := by
  refine ⟨rfl, rfl, rfl, ?_⟩
  decide

/-- Updating the first match with a function that preserves a projection
preserves that projection across the whole list. -/
theorem updateFirst_map {α β : Type} (g : α → β) (p : α → Bool) (f : α → α)
    (hf : ∀ a, g (f a) = g a) (l : List α) :
    (updateFirst p f l).map g = l.map g := by
  induction l with
  | nil => rfl
  | cons x xs ih =>
    unfold updateFirst
    by_cases hp : p x = true
    · simp [hp, hf]
    · simp [hp, ih]

/-- C8 (amended): for a `joinGame` call made while the game is not
`finished` and from a connection id that owns no team slot: an
empty-after-trim name is rejected with no state change; otherwise, if a
claimed team's name matches the requested name case-insensitively, that
team's connection id is updated and its `teamId` is returned, with every
team's claim flag unchanged (no new slot is claimed); otherwise the first
unclaimed slot in `teamId` order is claimed with the trimmed name; and with
no free slot the call is rejected with no state change. -/
theorem joinGame_case_analysis (teamName sid : String) (ms : ManagerState)
    (hnf : ms.state.status ≠ GameStatus.finished)
    (hns : ms.state.teams.find? (fun t => t.socketId == some sid) = none) :
    ((jsTrim teamName).length = 0 →
      joinGame teamName sid ms = (OpResult.fail "Team name is required", ms)) ∧
    ((jsTrim teamName).length ≠ 0 →
      (∀ t, ms.state.teams.find?
            (fun u => u.isClaimed && jsToLower u.teamName == jsToLower (jsTrim teamName))
          = some t →
        joinGame teamName sid ms
          = ({ success := true, teamId := some t.teamId },
             ms.setTeams (updateFirst
               (fun u => u.isClaimed && jsToLower u.teamName == jsToLower (jsTrim teamName))
               (fun u => { u with socketId := some sid }) ms.state.teams)) ∧
        (joinGame teamName sid ms).2.state.teams.map TeamState.isClaimed
          = ms.state.teams.map TeamState.isClaimed) ∧
      (ms.state.teams.find?
          (fun u => u.isClaimed && jsToLower u.teamName == jsToLower (jsTrim teamName))
        = none →
        (∀ t, ms.state.teams.find? (fun u => !u.isClaimed) = some t →
          joinGame teamName sid ms
            = ({ success := true, teamId := some t.teamId },
               ms.setTeams (updateFirst (fun u => !u.isClaimed)
                 (fun u => { u with isClaimed := true, socketId := some sid,
                                    teamName := jsTrim teamName }) ms.state.teams))) ∧
        (ms.state.teams.find? (fun u => !u.isClaimed) = none →
          joinGame teamName sid ms = (OpResult.fail "All team slots are full", ms)))) := by
  refine ⟨?_, ?_⟩
  · intro h0
    unfold joinGame
    rw [if_neg hnf, if_pos h0]
  · intro hne
    refine ⟨?_, ?_⟩
    · intro t ht
      have hjoin : joinGame teamName sid ms
          = ({ success := true, teamId := some t.teamId },
             ms.setTeams (updateFirst
               (fun u => u.isClaimed && jsToLower u.teamName == jsToLower (jsTrim teamName))
               (fun u => { u with socketId := some sid }) ms.state.teams)) := by
        unfold joinGame
        rw [if_neg hnf, if_neg hne, hns, ht]
      refine ⟨hjoin, ?_⟩
      rw [hjoin]
      exact updateFirst_map TeamState.isClaimed
        (fun u => u.isClaimed && jsToLower u.teamName == jsToLower (jsTrim teamName))
        (fun u => { u with socketId := some sid }) (fun a => rfl) ms.state.teams
    · intro hname
      refine ⟨?_, ?_⟩
      · intro t ht
        unfold joinGame
        rw [if_neg hnf, if_neg hne, hns, hname, ht]
      · intro hfree
        unfold joinGame
        rw [if_neg hnf, if_neg hne, hns, hname, hfree]

/-- C8 counterexample: teams Alpha (slot 1, socket s1) and Beta (slot 2,
socket s2) are claimed; socket s1 calls `joinGame("Beta")`.  A claimed team
(slot 2) carries the requested name, so the claim says slot 2's connection
id is updated and teamId 2 returned — but the already-connected-socket
branch runs first: the call returns teamId 1, renames slot 1 to "Beta"
(two claimed slots now share the name), and leaves slot 2's connection id
untouched. -/
theorem joinGame_reconnect_counterexample :
    ((cexJoinMs.state.teams.find?
        (fun u => u.isClaimed && jsToLower u.teamName == jsToLower (jsTrim "Beta"))).map
        TeamState.teamId = some 2) ∧
    (joinGame "Beta" "s1" cexJoinMs).1.teamId = some 1 ∧
    (some 1 : Option ℕ) ≠ some 2 ∧
    ((joinGame "Beta" "s1" cexJoinMs).2.state.teams.map TeamState.socketId
      = [some "s1", some "s2"]) ∧
    ((joinGame "Beta" "s1" cexJoinMs).2.state.teams.map TeamState.teamName
      = ["Beta", "Beta"]) := by
  exact ⟨rfl, rfl, by decide, rfl, rfl⟩

/-- Witness for C8 (amended): a fresh socket joining with "beta" reconnects
onto claimed team Beta (case-insensitively), and a whitespace-only name is
rejected. -/
theorem joinGame_case_analysis_witness :
    joinGame "beta" "s9" cexJoinMs
      = ({ success := true, teamId := some 2 },
         cexJoinMs.setTeams (updateFirst
           (fun u => u.isClaimed && jsToLower u.teamName == jsToLower (jsTrim "beta"))
           (fun u => { u with socketId := some "s9" }) cexJoinMs.state.teams)) ∧
    joinGame "   " "s9" cexJoinMs = (OpResult.fail "Team name is required", cexJoinMs) := by
  have h := joinGame_case_analysis "beta" "s9" cexJoinMs (by decide) rfl
  have h2 := joinGame_case_analysis "   " "s9" cexJoinMs (by decide) rfl
  refine ⟨?_, h2.1 rfl⟩
  have h3 := (h.2 (by decide)).1
    { createTeamState 2 with isClaimed := true, teamName := "Beta", socketId := some "s2" }
    rfl
  exact h3.1
